import Mathlib

/-!
Verification development for the realistic-camera module
(src/src/cameras/realistic.cpp of scienstanford/pbrt-v3).

The C++ code is embedded shallowly over the real numbers: machine floats
become elements of the real field, fallible routines return Option, and the
per-element tracing loops become structural recursions on a fuel argument
that equals the number of lens elements, exactly mirroring the loop bounds
of the source. Helper routines that live in pbrt core headers (not part of
the two source files of this repository) are modelled from the spec and
marked as such in their doc comments.
-/

namespace pbrt

noncomputable section

open scoped Classical

/-- Geometric 3-vector with real components, embedding pbrt Vector3f
(also used for Point3f and Normal3f, which share the representation). -/
structure Vector3f where
  x : ℝ
  y : ℝ
  z : ℝ

/-- Points share the representation of vectors. -/
abbrev Point3f := Vector3f

/-- Geometric 2-point with real components, embedding pbrt Point2f. -/
structure Point2f where
  x : ℝ
  y : ℝ

/-- Modelled from the spec: componentwise negation of a vector
(pbrt core geometry.h, not under src/). -/
def negV (v : Vector3f) : Vector3f := ⟨-v.x, -v.y, -v.z⟩

/-- Modelled from the spec: dot product (pbrt core geometry.h, not under src/). -/
def Dot (a b : Vector3f) : ℝ := a.x * b.x + a.y * b.y + a.z * b.z

/-- Modelled from the spec: Normalize v = v / v.Length() with
Length = sqrt(x*x + y*y + z*z) (pbrt core geometry.h, not under src/). -/
def Normalize (v : Vector3f) : Vector3f :=
  ⟨v.x / Real.sqrt (v.x * v.x + v.y * v.y + v.z * v.z),
   v.y / Real.sqrt (v.x * v.x + v.y * v.y + v.z * v.z),
   v.z / Real.sqrt (v.x * v.x + v.y * v.y + v.z * v.z)⟩

/-- Modelled from the spec: Faceforward(n, v) flips n so it lies in the
hemisphere of v (pbrt core geometry.h, not under src/). -/
def Faceforward (n v : Vector3f) : Vector3f := if Dot n v < 0 then negV n else n

/-- Ray with origin, direction, time and (for dispersion-aware tracing)
a wavelength scalar, embedding the pbrt Ray value object. -/
structure Ray where
  o : Point3f
  d : Vector3f
  time : ℝ
  wavelength : ℝ

/-- Evaluation of a ray at a parameter: o + t * d componentwise
(pbrt Ray::operator(), core geometry.h, not under src/). -/
def rayAt (r : Ray) (t : ℝ) : Point3f :=
  ⟨r.o.x + t * r.d.x, r.o.y + t * r.d.y, r.o.z + t * r.d.z⟩

/-- Modelled from the spec: linear interpolation
Lerp(t, v1, v2) = (1 - t) * v1 + t * v2 (pbrt core, not under src/). -/
def Lerp (t v1 v2 : ℝ) : ℝ := (1 - t) * v1 + t * v2

/-- Axis-aligned 2D bounding rectangle, embedding pbrt Bounds2f. -/
structure Bounds2f where
  pMin : Point2f
  pMax : Point2f

/-- Modelled from the spec: largest representable float, used by the default
Bounds2 constructor as a sentinel (pbrt core, not under src/).
The exact value is FLT_MAX = 2^128 - 2^104. -/
def maxNum : ℝ := 2 ^ 128 - 2 ^ 104

/-- Modelled from the spec: the default (empty) Bounds2f has
pMin = (maxNum, maxNum) and pMax = (-maxNum, -maxNum), so that it contains
no point (pbrt core geometry.h, not under src/). -/
def bounds2Default : Bounds2f := ⟨⟨maxNum, maxNum⟩, ⟨-maxNum, -maxNum⟩⟩

instance : Inhabited Bounds2f := ⟨bounds2Default⟩

/-- Modelled from the spec: the two-point Bounds2 constructor takes the
componentwise min and max of its arguments (pbrt core, not under src/). -/
def mkBounds2 (p1 p2 : Point2f) : Bounds2f :=
  ⟨⟨min p1.x p2.x, min p1.y p2.y⟩, ⟨max p1.x p2.x, max p1.y p2.y⟩⟩

/-- Modelled from the spec: membership test of a point in a Bounds2f,
with closed boundaries (pbrt Inside for Bounds2, core, not under src/). -/
def Inside (p : Point2f) (b : Bounds2f) : Prop :=
  b.pMin.x ≤ p.x ∧ p.x ≤ b.pMax.x ∧ b.pMin.y ≤ p.y ∧ p.y ≤ b.pMax.y

/-- Modelled from the spec: Union of a Bounds2f with a point, the
componentwise min/max extension (pbrt core, not under src/). -/
def unionPoint (b : Bounds2f) (p : Point2f) : Bounds2f :=
  ⟨⟨min b.pMin.x p.x, min b.pMin.y p.y⟩, ⟨max b.pMax.x p.x, max b.pMax.y p.y⟩⟩

/-- Modelled from the spec: Expand grows a Bounds2f by delta on every side
(pbrt core, not under src/). -/
def expandBounds (b : Bounds2f) (delta : ℝ) : Bounds2f :=
  ⟨⟨b.pMin.x - delta, b.pMin.y - delta⟩, ⟨b.pMax.x + delta, b.pMax.y + delta⟩⟩

/-- Modelled from the spec: Bounds2::Area, the product of the diagonal
components (pbrt core, not under src/). -/
def Area (b : Bounds2f) : ℝ := (b.pMax.x - b.pMin.x) * (b.pMax.y - b.pMin.y)

/-- Modelled from the spec: Bounds2::Lerp interpolates a 2D parameter over
the corners componentwise (pbrt core, not under src/). -/
def lerpBounds (b : Bounds2f) (t : Point2f) : Point2f :=
  ⟨Lerp t.x b.pMin.x b.pMax.x, Lerp t.y b.pMin.y b.pMax.y⟩

/-- Modelled from the spec: Bounds2::Diagonal().Length()
(pbrt core, not under src/). -/
def diagLength (b : Bounds2f) : ℝ :=
  Real.sqrt ((b.pMax.x - b.pMin.x) * (b.pMax.x - b.pMin.x) +
             (b.pMax.y - b.pMin.y) * (b.pMax.y - b.pMin.y))

/-- Modelled from the spec: the radical inverse of a in the given base, the
low-discrepancy sequence used by BoundExitPupil via RadicalInverse(0, a)
(base 2) and RadicalInverse(1, a) (base 3) (pbrt core lowdiscrepancy.h,
not under src/). The digit reversal is expressed through Nat.digits. -/
def RadicalInverse (base a : ℕ) : ℝ :=
  (Nat.digits base a).foldr (fun d r => (r + (d : ℝ)) / (base : ℝ)) 0

/-- The Scale(1, 1, -1) transform applied to a ray; this is both
CameraToLens and LensToCamera in the tracers (realistic.cpp lines 229-230,
290-291, 322-323, 362-363). Origin and direction flip their z component;
time and wavelength are carried along unchanged. -/
def applyLensScale (r : Ray) : Ray :=
  { r with o := ⟨r.o.x, r.o.y, -r.o.z⟩, d := ⟨r.d.x, r.d.y, -r.d.z⟩ }

/-- One lens surface or the aperture stop, embedding LensElementInterface
(realistic.h member data, used throughout realistic.cpp). curvatureRadius 0
marks the stop; eta is the index of refraction of the medium toward the
scene side; apertureRadius is the radius of the clear opening. -/
structure LensElementInterface where
  curvatureRadius : ℝ
  thickness : ℝ
  eta : ℝ
  apertureRadius : ℝ

instance : Inhabited LensElementInterface := ⟨⟨0, 0, 0, 0⟩⟩

/-- Sample produced by the sampler for the camera, embedding CameraSample
(pbrt core camera.h, not under src/): a film position, a 2D lens sample
and a shutter-time parameter. -/
structure CameraSample where
  pFilm : Point2f
  pLens : Point2f
  time : ℝ

/-- The camera state read by the operations of realistic.cpp: the element
stack, shutter interval, the three construction flags, the precomputed exit
pupil table, and the film data that GenerateRay consults. The
camera-to-world transform is kept as an abstract function on rays (it is an
external AnimatedTransform, not under src/). -/
structure RealisticCamera where
  elementInterfaces : List LensElementInterface
  shutterOpen : ℝ
  shutterClose : ℝ
  simpleWeighting : Bool
  noWeighting : Bool
  caFlag : Bool
  exitPupilBounds : List Bounds2f
  filmDiagonal : ℝ
  filmPhysicalExtent : Bounds2f
  filmFullResolution : Point2f
  c2w : Ray → Ray

/-- Modelled from the spec: LensRearZ, the axial camera-space position of
the rearmost surface, which is the thickness of the last element
(accessor declared in realistic.h, not under src/). -/
def LensRearZ (cam : RealisticCamera) : ℝ :=
  (cam.elementInterfaces.getLastD default).thickness

/-- Modelled from the spec: LensFrontZ, the sum of all element thicknesses
(accessor declared in realistic.h, not under src/). -/
def LensFrontZ (cam : RealisticCamera) : ℝ :=
  (cam.elementInterfaces.map fun e => e.thickness).sum

/-- Modelled from the spec: RearElementRadius, the aperture radius of the
rearmost element (accessor declared in realistic.h, not under src/). -/
def RearElementRadius (cam : RealisticCamera) : ℝ :=
  (cam.elementInterfaces.getLastD default).apertureRadius

/-- Modelled from the spec: the quadratic solver used by
IntersectSphericalElement. It fails exactly when the discriminant
b*b - 4*a*c is negative, and otherwise returns the two real roots
(pbrt core Quadratic, not under src/). -/
def Quadratic (a b c : ℝ) : Option (ℝ × ℝ) :=
  if b * b - 4 * a * c < 0 then none
  else some ((-b - Real.sqrt (b * b - 4 * a * c)) / (2 * a),
             (-b + Real.sqrt (b * b - 4 * a * c)) / (2 * a))

/-- Ray origin relative to the sphere center: o = ray.o - (0,0,zCenter)
(realistic.cpp line 300). -/
def sphereOrel (zCenter : ℝ) (ray : Ray) : Vector3f :=
  ⟨ray.o.x, ray.o.y, ray.o.z - zCenter⟩

/-- Quadratic coefficient A of the ray-sphere intersection
(realistic.cpp line 301). -/
def sphereA (ray : Ray) : ℝ :=
  ray.d.x * ray.d.x + ray.d.y * ray.d.y + ray.d.z * ray.d.z

/-- Quadratic coefficient B of the ray-sphere intersection
(realistic.cpp line 302). -/
def sphereB (zCenter : ℝ) (ray : Ray) : ℝ :=
  2 * (ray.d.x * (sphereOrel zCenter ray).x + ray.d.y * (sphereOrel zCenter ray).y +
       ray.d.z * (sphereOrel zCenter ray).z)

/-- Quadratic coefficient C of the ray-sphere intersection
(realistic.cpp line 303). -/
def sphereC (radius zCenter : ℝ) (ray : Ray) : ℝ :=
  (sphereOrel zCenter ray).x * (sphereOrel zCenter ray).x +
  (sphereOrel zCenter ray).y * (sphereOrel zCenter ray).y +
  (sphereOrel zCenter ray).z * (sphereOrel zCenter ray).z - radius * radius

/-- Discriminant of the ray-sphere quadratic. -/
def sphereDiscrim (radius zCenter : ℝ) (ray : Ray) : ℝ :=
  sphereB zCenter ray * sphereB zCenter ray -
    4 * sphereA ray * sphereC radius zCenter ray

/-- Smaller-formula root of the ray-sphere quadratic. -/
def sphereT0 (radius zCenter : ℝ) (ray : Ray) : ℝ :=
  (-sphereB zCenter ray - Real.sqrt (sphereDiscrim radius zCenter ray)) / (2 * sphereA ray)

/-- Larger-formula root of the ray-sphere quadratic. -/
def sphereT1 (radius zCenter : ℝ) (ray : Ray) : ℝ :=
  (-sphereB zCenter ray + Real.sqrt (sphereDiscrim radius zCenter ray)) / (2 * sphereA ray)

/-- The root selected by the deterministic rule of realistic.cpp lines
308-309: the closer intersection when (ray z-direction positive) XOR
(radius negative), otherwise the farther one. -/
def sphereSelectedT (radius zCenter : ℝ) (ray : Ray) : ℝ :=
  if Xor' (0 < ray.d.z) (radius < 0)
  then min (sphereT0 radius zCenter ray) (sphereT1 radius zCenter ray)
  else max (sphereT0 radius zCenter ray) (sphereT1 radius zCenter ray)

/-- Embedding of RealisticCamera::IntersectSphericalElement (realistic.cpp
lines 296-316): solve the quadratic for the ray against the sphere of the
given signed radius centered on the axis at zCenter, select the root by the
direction/curvature rule, reject a negative selected root, and return the
parameter together with the outward surface normal flipped toward the
incoming direction. -/
def IntersectSphericalElement (radius zCenter : ℝ) (ray : Ray) :
    Option (ℝ × Vector3f) :=
  match Quadratic (sphereA ray) (sphereB zCenter ray) (sphereC radius zCenter ray) with
  | none => none
  | some (t0, t1) =>
    let t := if Xor' (0 < ray.d.z) (radius < 0) then min t0 t1 else max t0 t1
    if t < 0 then none
    else
      let n0 : Vector3f :=
        ⟨(sphereOrel zCenter ray).x + t * ray.d.x,
         (sphereOrel zCenter ray).y + t * ray.d.y,
         (sphereOrel zCenter ray).z + t * ray.d.z⟩
      some (t, Faceforward (Normalize n0) (negV ray.d))

/-- Modelled from the spec: 3D vector refraction by Snell law, failing on
total internal reflection (pbrt core reflection.h Refract, not under
src/). eta is the ratio of the incident to the transmitted index. -/
def Refract (wi n : Vector3f) (eta : ℝ) : Option Vector3f :=
  let cosThetaI := Dot n wi
  let sin2ThetaI := max 0 (1 - cosThetaI * cosThetaI)
  let sin2ThetaT := eta * eta * sin2ThetaI
  if 1 ≤ sin2ThetaT then none
  else
    let cosThetaT := Real.sqrt (1 - sin2ThetaT)
    some ⟨eta * (-wi.x) + (eta * cosThetaI - cosThetaT) * n.x,
          eta * (-wi.y) + (eta * cosThetaI - cosThetaT) * n.y,
          eta * (-wi.z) + (eta * cosThetaI - cosThetaT) * n.z⟩

/-- The linear chromatic-aberration index perturbation of realistic.cpp
lines 279 and 281: (wavelength - 550) * -.04 / 300 + eta. -/
def caPerturb (wavelength eta : ℝ) : ℝ :=
  (wavelength - 550) * -(0.04) / 300 + eta

/-- The pair (etaI, etaT) used for refraction at element i of the
film-to-scene trace (realistic.cpp lines 271-282): etaI is the eta of
element i, etaT comes from element i-1 when that exists and is nonzero,
else 1; when the chromatic-aberration flag is set and the wavelength lies
in [400, 700], each index that is not 1 is perturbed linearly. -/
def filmEtas (caFlag : Bool) (wavelength : ℝ)
    (elems : List LensElementInterface) (i : ℕ) : ℝ × ℝ :=
  let etaI := (elems.getD i default).eta
  let etaT := if 0 < i ∧ (elems.getD (i - 1) default).eta ≠ 0
              then (elems.getD (i - 1) default).eta else 1
  if caFlag = true ∧ 400 ≤ wavelength ∧ wavelength ≤ 700 then
    (if etaI ≠ 1 then caPerturb wavelength etaI else etaI,
     if etaT ≠ 1 then caPerturb wavelength etaT else etaT)
  else (etaI, etaT)

/-- The pair (etaI, etaT) used for refraction at element i of the
scene-to-film trace (realistic.cpp lines 349-353): etaI comes from element
i-1 when that exists and is nonzero, else 1; etaT is the eta of element i
when nonzero, else 1. No chromatic-aberration perturbation is applied in
this direction. -/
def sceneEtas (elems : List LensElementInterface) (i : ℕ) : ℝ × ℝ :=
  (if i = 0 ∨ (elems.getD (i - 1) default).eta = 0
   then 1 else (elems.getD (i - 1) default).eta,
   if (elems.getD i default).eta ≠ 0 then (elems.getD i default).eta else 1)

/-- Loop body of RealisticCamera::TraceLensesFromFilm (realistic.cpp lines
239-287), walking the element list from index fuel-1 down to 0. Each step
first decrements the running axial coordinate by the element thickness,
then intersects: a stop is a plane at the vertex z, rejected up front when
the lens-space z direction is >= 0 (lines 248-253); a curved element goes
through IntersectSphericalElement. The hit is tested against the element
aperture, and a non-stop element refracts the direction with the filmEtas
ratio. A CHECK_GE(t, 0) assertion of the source is not part of the value
semantics and is omitted. -/
def traceFilmAux (caFlag : Bool) (elems : List LensElementInterface) :
    ℕ → ℝ → Ray → Option Ray
  | 0, _, rLens => some rLens
  | k + 1, elementZ, rLens =>
    let element := elems.getD k default
    let elementZ2 := elementZ - element.thickness
    match (if element.curvatureRadius = 0 then
            (if 0 ≤ rLens.d.z then none
             else some ((elementZ2 - rLens.o.z) / rLens.d.z, (⟨0, 0, 0⟩ : Vector3f)))
          else
            IntersectSphericalElement element.curvatureRadius
              (elementZ2 + element.curvatureRadius) rLens) with
    | none => none
    | some (t, n) =>
      let pHit := rayAt rLens t
      if element.apertureRadius * element.apertureRadius <
          pHit.x * pHit.x + pHit.y * pHit.y then none
      else
        let rLens2 : Ray := { rLens with o := pHit }
        if element.curvatureRadius = 0 then
          traceFilmAux caFlag elems k elementZ2 rLens2
        else
          match Refract (Normalize (negV rLens2.d)) n
                  ((filmEtas caFlag rLens2.wavelength elems k).1 /
                   (filmEtas caFlag rLens2.wavelength elems k).2) with
          | none => none
          | some w => traceFilmAux caFlag elems k elementZ2 { rLens2 with d := w }

/-- Embedding of RealisticCamera::TraceLensesFromFilm (realistic.cpp lines
226-294). The input ray is moved to lens space by the Scale(1,1,-1)
transform; its wavelength is replaced by the wavelength of the output-ray
argument when that argument is non-null and by 550 otherwise (lines
233-237, the rOutWavelength parameter models the pre-call wavelength of
the output ray, none modelling a null pointer); the loop starts at the
rearmost element with the running axial coordinate 0; on success the
resulting ray is mapped back to camera space. -/
def TraceLensesFromFilm (cam : RealisticCamera) (rCamera : Ray)
    (rOutWavelength : Option ℝ) : Option Ray :=
  (traceFilmAux cam.caFlag cam.elementInterfaces cam.elementInterfaces.length 0
    { applyLensScale rCamera with
        wavelength := match rOutWavelength with | some w => w | none => 550 }).map
    applyLensScale

/-- Loop body of RealisticCamera::TraceLensesFromScene (realistic.cpp lines
324-359), walking the element list from index 0 upward with fuel counting
the remaining elements. The stop branch computes
t = (elementZ - o.z) / d.z with no guard on d.z (line 331); a curved
element goes through IntersectSphericalElement; the aperture test and
refraction with the sceneEtas ratio follow; the running axial coordinate is
incremented by the element thickness after the step. -/
def traceSceneAux (elems : List LensElementInterface) :
    ℕ → ℕ → ℝ → Ray → Option Ray
  | 0, _, _, rLens => some rLens
  | fuel + 1, i, elementZ, rLens =>
    let element := elems.getD i default
    match (if element.curvatureRadius = 0 then
            some ((elementZ - rLens.o.z) / rLens.d.z, (⟨0, 0, 0⟩ : Vector3f))
          else
            IntersectSphericalElement element.curvatureRadius
              (elementZ + element.curvatureRadius) rLens) with
    | none => none
    | some (t, n) =>
      let pHit := rayAt rLens t
      if element.apertureRadius * element.apertureRadius <
          pHit.x * pHit.x + pHit.y * pHit.y then none
      else
        let rLens2 : Ray := { rLens with o := pHit }
        if element.curvatureRadius = 0 then
          traceSceneAux elems fuel (i + 1) (elementZ + element.thickness) rLens2
        else
          match Refract (Normalize (negV rLens2.d)) n
                  ((sceneEtas elems i).1 / (sceneEtas elems i).2) with
          | none => none
          | some wt =>
            traceSceneAux elems fuel (i + 1) (elementZ + element.thickness)
              { rLens2 with d := wt }

/-- Embedding of RealisticCamera::TraceLensesFromScene (realistic.cpp lines
318-366). The running axial coordinate starts at -LensFrontZ; the ray is
moved to lens space, traced front to back, and mapped back to camera space
on success. -/
def TraceLensesFromScene (cam : RealisticCamera) (rCamera : Ray) : Option Ray :=
  (traceSceneAux cam.elementInterfaces cam.elementInterfaces.length 0
    (-(LensFrontZ cam)) (applyLensScale rCamera)).map applyLensScale

/-- Embedding of RealisticCamera::SampleExitPupil (realistic.cpp lines
756-775): find the radial band of the film point, interpolate the lens
sample into its precomputed pupil bound, rotate the result by the azimuth
of the film point, and return it on the rear-element plane together with
the area of the band bound. The C++ float-to-int cast of the nonnegative
band index is the floor. -/
def SampleExitPupil (cam : RealisticCamera) (pFilm : Point2f)
    (lensSample : Point2f) : Point3f × ℝ :=
  let rFilm := Real.sqrt (pFilm.x * pFilm.x + pFilm.y * pFilm.y)
  let rIndex := min (cam.exitPupilBounds.length - 1)
      (Int.toNat ⌊rFilm / (cam.filmDiagonal / 2) * (cam.exitPupilBounds.length : ℝ)⌋)
  let pupilBounds := cam.exitPupilBounds.getD rIndex default
  let pLens := lerpBounds pupilBounds lensSample
  let sinTheta := if rFilm ≠ 0 then pFilm.y / rFilm else 0
  let cosTheta := if rFilm ≠ 0 then pFilm.x / rFilm else 1
  (⟨cosTheta * pLens.x - sinTheta * pLens.y,
    sinTheta * pLens.x + cosTheta * pLens.y, LensRearZ cam⟩,
   Area pupilBounds)

/-- The film point of a camera sample (realistic.cpp lines 827-830):
normalized raster position interpolated over the physical film extent and
negated in x. -/
def filmSamplePoint (cam : RealisticCamera) (sample : CameraSample) : Point3f :=
  ⟨-(Lerp (sample.pFilm.x / cam.filmFullResolution.x)
      cam.filmPhysicalExtent.pMin.x cam.filmPhysicalExtent.pMax.x),
   Lerp (sample.pFilm.y / cam.filmFullResolution.y)
      cam.filmPhysicalExtent.pMin.y cam.filmPhysicalExtent.pMax.y,
   0⟩

/-- The film-side ray that GenerateRay traces (realistic.cpp lines
832-837): from the film point toward the sampled exit-pupil point, with
time interpolated over the shutter interval. -/
def filmRay (cam : RealisticCamera) (sample : CameraSample) : Ray :=
  ⟨filmSamplePoint cam sample,
   ⟨(SampleExitPupil cam ⟨(filmSamplePoint cam sample).x, (filmSamplePoint cam sample).y⟩
        sample.pLens).1.x - (filmSamplePoint cam sample).x,
    (SampleExitPupil cam ⟨(filmSamplePoint cam sample).x, (filmSamplePoint cam sample).y⟩
        sample.pLens).1.y - (filmSamplePoint cam sample).y,
    (SampleExitPupil cam ⟨(filmSamplePoint cam sample).x, (filmSamplePoint cam sample).y⟩
        sample.pLens).1.z - (filmSamplePoint cam sample).z⟩,
   Lerp sample.time cam.shutterOpen cam.shutterClose,
   550⟩

/-- Embedding of RealisticCamera::GenerateRay (realistic.cpp lines
823-856). The result is the returned weight together with the produced
world-space ray (none when the trace vignetted the sample and the weight
0 is returned, lines 838-841). On success the traced ray goes through the
camera-to-world transform and is normalized; the weight uses the fourth
power of the z component of the normalized pre-trace film-side direction:
with simpleWeighting it is scaled by the band pupil area over the central
band pupil area (line 852), otherwise by the shutter duration and the band
pupil area over the squared rear-element z (lines 854-855).
rOutWavelength models the pre-call wavelength of the output-ray argument
(the trace reads it, lines 233-234). -/
def GenerateRay (cam : RealisticCamera) (sample : CameraSample)
    (rOutWavelength : ℝ) : ℝ × Option Ray :=
  match TraceLensesFromFilm cam (filmRay cam sample) (some rOutWavelength) with
  | none => (0, none)
  | some r =>
    let rayWorld := cam.c2w r
    let rayWorld2 := { rayWorld with d := Normalize rayWorld.d }
    let cosTheta := (Normalize (filmRay cam sample).d).z
    let cos4Theta := cosTheta * cosTheta * (cosTheta * cosTheta)
    if cam.simpleWeighting then
      (cos4Theta *
        (SampleExitPupil cam ⟨(filmSamplePoint cam sample).x, (filmSamplePoint cam sample).y⟩
           sample.pLens).2 / Area (cam.exitPupilBounds.getD 0 default),
       some rayWorld2)
    else
      ((cam.shutterClose - cam.shutterOpen) *
        (cos4Theta *
          (SampleExitPupil cam ⟨(filmSamplePoint cam sample).x, (filmSamplePoint cam sample).y⟩
             sample.pLens).2) / (LensRearZ cam * LensRearZ cam),
       some rayWorld2)

/-- The fixed sample count of BoundExitPupil (realistic.cpp line 680). -/
def nSamplesEP : ℕ := 1024 * 1024

/-- The conservative bounding square of the rear-element projection used by
BoundExitPupil (realistic.cpp lines 684-686): 1.5 times the rear element
radius on each axis, built with the min/max two-point constructor. -/
def projRearBoundsOf (cam : RealisticCamera) : Bounds2f :=
  mkBounds2 ⟨-1.5 * RearElementRadius cam, -1.5 * RearElementRadius cam⟩
            ⟨1.5 * RearElementRadius cam, 1.5 * RearElementRadius cam⟩

/-- Film point of sample i in BoundExitPupil (realistic.cpp line 689). -/
def boundExitPupilPFilm (pFilmX0 pFilmX1 : ℝ) (i : ℕ) : Point3f :=
  ⟨Lerp (((i : ℝ) + 0.5) / (nSamplesEP : ℝ)) pFilmX0 pFilmX1, 0, 0⟩

/-- Rear-plane point of sample i in BoundExitPupil (realistic.cpp lines
690-693), low-discrepancy coordinates interpolated over the conservative
square. RadicalInverse(0, i) is base 2 and RadicalInverse(1, i) base 3. -/
def boundExitPupilPRear (cam : RealisticCamera) (i : ℕ) : Point3f :=
  ⟨Lerp (RadicalInverse 2 i) (projRearBoundsOf cam).pMin.x (projRearBoundsOf cam).pMax.x,
   Lerp (RadicalInverse 3 i) (projRearBoundsOf cam).pMin.y (projRearBoundsOf cam).pMax.y,
   LensRearZ cam⟩

/-- The candidate ray of sample i in BoundExitPupil (realistic.cpp line
697): from the film point toward the rear point, traced with a null output
ray. -/
def boundExitPupilRay (cam : RealisticCamera) (pFilmX0 pFilmX1 : ℝ) (i : ℕ) : Ray :=
  ⟨boundExitPupilPFilm pFilmX0 pFilmX1 i,
   ⟨(boundExitPupilPRear cam i).x - (boundExitPupilPFilm pFilmX0 pFilmX1 i).x,
    (boundExitPupilPRear cam i).y - (boundExitPupilPFilm pFilmX0 pFilmX1 i).y,
    (boundExitPupilPRear cam i).z - (boundExitPupilPFilm pFilmX0 pFilmX1 i).z⟩,
   0, 550⟩

/-- The acceptance test of sample i in BoundExitPupil (realistic.cpp lines
696-697): the rear point already lies inside the accumulated bound, or the
candidate ray exits the lens stack. -/
def boundExitPupilSampleCond (cam : RealisticCamera) (pFilmX0 pFilmX1 : ℝ)
    (pupilBounds : Bounds2f) (i : ℕ) : Prop :=
  Inside ⟨(boundExitPupilPRear cam i).x, (boundExitPupilPRear cam i).y⟩ pupilBounds ∨
    TraceLensesFromFilm cam (boundExitPupilRay cam pFilmX0 pFilmX1 i) none ≠ none

/-- One iteration of the BoundExitPupil sampling loop (realistic.cpp lines
687-701) on the state (accumulated bound, number of accepted samples). -/
def boundExitPupilStep (cam : RealisticCamera) (pFilmX0 pFilmX1 : ℝ)
    (st : Bounds2f × ℕ) (i : ℕ) : Bounds2f × ℕ :=
  if boundExitPupilSampleCond cam pFilmX0 pFilmX1 st.1 i then
    (unionPoint st.1 ⟨(boundExitPupilPRear cam i).x, (boundExitPupilPRear cam i).y⟩,
     st.2 + 1)
  else st

/-- The state of the BoundExitPupil sampling loop after the first k
samples, starting from the default (empty) bound and a zero count. -/
def boundExitPupilAccum (cam : RealisticCamera) (pFilmX0 pFilmX1 : ℝ)
    (k : ℕ) : Bounds2f × ℕ :=
  (List.range k).foldl (boundExitPupilStep cam pFilmX0 pFilmX1) (bounds2Default, 0)

/-- Embedding of RealisticCamera::BoundExitPupil (realistic.cpp lines
677-714): run the sampling loop over the fixed sample count; when no
sample was accepted return the full conservative bounding square, else
expand the accumulated bound by the sampling-density margin. -/
def BoundExitPupil (cam : RealisticCamera) (pFilmX0 pFilmX1 : ℝ) : Bounds2f :=
  if (boundExitPupilAccum cam pFilmX0 pFilmX1 nSamplesEP).2 = 0 then
    projRearBoundsOf cam
  else
    expandBounds (boundExitPupilAccum cam pFilmX0 pFilmX1 nSamplesEP).1
      (2 * diagLength (projRearBoundsOf cam) / Real.sqrt (nSamplesEP : ℝ))

/-- The lens-data size validation of CreateRealisticCamera (realistic.cpp
lines 887-900): a value count congruent to 1 modulo 4 drops the leading
value and records a warning (the Bool of the result); any other count that
is not a multiple of four is an error and camera creation returns no
camera; a multiple of four passes through unchanged. -/
def processLensData (lensData : List ℝ) : Option (List ℝ × Bool) :=
  if lensData.length % 4 ≠ 0 then
    if lensData.length % 4 = 1 then some (lensData.tail, true)
    else none
  else some (lensData, false)

/-- The focus decision of the RealisticCamera constructor (realistic.cpp
lines 77-90): when no explicit film distance is given (filmdistance = 0)
the thickness installed on the final element is the FocusThickLens result;
the FocusBinarySearch result fb is computed on line 78 but used only in a
log message; a nonzero filmdistance is installed directly. fb and ft stand
for the values of FocusBinarySearch(focusDistance) and
FocusThickLens(focusDistance) on the constructed camera. -/
def installedBackThickness (filmdistance fb ft : ℝ) : ℝ :=
  if filmdistance = 0 then ft else filmdistance

/-- Concrete stop-only lens element used by the witnesses: curvature 0
(a stop), thickness 1, eta 0, aperture radius 1. -/
def stopElem : LensElementInterface := ⟨0, 1, 0, 1⟩

/-- Concrete stop element with zero thickness, placing the rear surface on
the film plane so that every exit-pupil candidate ray has a zero z
direction. -/
def stopElem0 : LensElementInterface := ⟨0, 0, 0, 1⟩

/-- Concrete pupil-bound box [-1,1] x [-1,1] of area 4. -/
def unitBox : Bounds2f := ⟨⟨-1, -1⟩, ⟨1, 1⟩⟩

/-- Concrete camera with a single stop element, shutter [0,1], simple
weighting on, a one-entry pupil table, film diagonal 2, physical extent
the unit box, resolution (1,1) and the identity world transform. -/
def camS : RealisticCamera :=
  ⟨[stopElem], 0, 1, true, false, false, [unitBox], 2, unitBox, ⟨1, 1⟩, id⟩

/-- The camera camS with simple weighting off. -/
def camNS : RealisticCamera := { camS with simpleWeighting := false }

/-- The camera camS with the zero-thickness stop element. -/
def camStop0 : RealisticCamera := { camS with elementInterfaces := [stopElem0] }

/-- Concrete camera sample hitting the film center with a centered lens
sample. -/
def sampleC : CameraSample := ⟨⟨1 / 2, 1 / 2⟩, ⟨1 / 2, 1 / 2⟩, 0⟩

/-- Concrete ray perpendicular to the optical axis (z direction 0). -/
def rayPerp : Ray := ⟨⟨0, 0, 0⟩, ⟨1, 0, 0⟩, 0, 550⟩

/-- Concrete ray pointing toward the film side (camera z direction -1,
hence lens-space z direction 0 or larger after the axis flip is
considered: its camera d.z is nonpositive). -/
def rayBack : Ray := ⟨⟨0, 0, 0⟩, ⟨0, 0, -1⟩, 0, 550⟩

/-- Concrete element list with one refracting surface of eta 3/2. -/
def elemsC6 : List LensElementInterface := [⟨1, 1, 3 / 2, 1⟩]

/-- Concrete axial ray toward the sphere of radius 1 centered at the
origin, from z = -2. -/
def ray0 : Ray := ⟨⟨0, 0, -2⟩, ⟨0, 0, 1⟩, 0, 550⟩

/-- C1 counterexample: with no explicit film distance (filmdistance 0), a
configuration where the binary-search result is 1 and the thick-lens
result is 2 installs 2, the thick-lens value, and not the binary-search
value, contradicting the claim that the installed spacing is the
binary-search refinement. -/
theorem c1_install_counterexample :
    installedBackThickness 0 1 2 = 2 ∧ installedBackThickness 0 1 2 ≠ 1 := by
  constructor <;> norm_num [installedBackThickness]

/-- C1 amended: for every camera constructed without an explicit film
distance, the installed film-to-rear-element spacing is the thick-lens
closed-form result; the binary-search refinement is computed but only
logged, so the installed value does not depend on it. -/
theorem c1_install_thick_lens (fb fbAlt ft : ℝ) :
    installedBackThickness 0 fb ft = ft ∧
    installedBackThickness 0 fb ft = installedBackThickness 0 fbAlt ft := by
  constructor <;> simp [installedBackThickness]

/-- C8: a lens description value count congruent to 1 modulo 4 is accepted
with the leading value stripped and the warning recorded, and any other
count that is not a multiple of four makes camera creation fail with no
camera. -/
theorem c8_lens_count_validation (lensData : List ℝ) :
    (lensData.length % 4 = 1 →
      processLensData lensData = some (lensData.tail, true)) ∧
    (lensData.length % 4 ≠ 0 → lensData.length % 4 ≠ 1 →
      processLensData lensData = none) := by
  refine ⟨fun h => ?_, fun h0 h1 => ?_⟩
  · simp [processLensData, h]
  · simp [processLensData, h0, h1]

/-- C8 witness: a five-value description is accepted with the head dropped
and the warning flag set, and a six-value description is rejected. -/
theorem c8_lens_count_validation_witness :
    processLensData [(0 : ℝ), 0, 0, 0, 0] = some ([0, 0, 0, 0], true) ∧
    processLensData [(0 : ℝ), 0, 0, 0, 0, 0] = none := by
  constructor
  · have h := (c8_lens_count_validation [(0 : ℝ), 0, 0, 0, 0]).1 (by decide)
    simpa using h
  · exact (c8_lens_count_validation [(0 : ℝ), 0, 0, 0, 0, 0]).2 (by decide) (by decide)

/-- C9: two-run noninterference in the noWeighting flag: the weight and
ray produced by GenerateRay, and the results of both tracers, are
identical whether the stored noWeighting flag is true or false, since no
operation reads it. -/
theorem c9_noweighting_noninterference (cam : RealisticCamera)
    (sample : CameraSample) (w : ℝ) (b1 b2 : Bool) (r : Ray) (rOutW : Option ℝ) :
    GenerateRay { cam with noWeighting := b1 } sample w =
      GenerateRay { cam with noWeighting := b2 } sample w ∧
    TraceLensesFromFilm { cam with noWeighting := b1 } r rOutW =
      TraceLensesFromFilm { cam with noWeighting := b2 } r rOutW ∧
    TraceLensesFromScene { cam with noWeighting := b1 } r =
      TraceLensesFromScene { cam with noWeighting := b2 } r :=
  ⟨rfl, rfl, rfl⟩

/-- C10: the film-to-scene tracer ignores the wavelength of its input ray,
and the wavelength it traces with comes from the output-ray argument when
that argument is non-null and is 550 when it is null. -/
theorem c10_wavelength_from_output_arg (cam : RealisticCamera) (r : Ray)
    (w wIn : ℝ) :
    TraceLensesFromFilm cam { r with wavelength := wIn } (some w) =
      TraceLensesFromFilm cam r (some w) ∧
    TraceLensesFromFilm cam { r with wavelength := wIn } none =
      TraceLensesFromFilm cam r none ∧
    TraceLensesFromFilm cam r (some w) =
      (traceFilmAux cam.caFlag cam.elementInterfaces cam.elementInterfaces.length 0
        { applyLensScale r with wavelength := w }).map applyLensScale ∧
    TraceLensesFromFilm cam r none =
      (traceFilmAux cam.caFlag cam.elementInterfaces cam.elementInterfaces.length 0
        { applyLensScale r with wavelength := 550 }).map applyLensScale :=
  ⟨rfl, rfl, rfl, rfl⟩

/-- C2 amended: the film-to-scene trace guards the stop-plane division: when
the element met first from the film (the last of the list) is the stop and
the lens-space z direction of the ray is nonnegative (camera-space d.z
nonpositive), the trace fails and returns no intersection before dividing.
The scene-to-film trace performs the corresponding division unguarded (see
the counterexample). -/
theorem c2_film_stop_guard (cam : RealisticCamera) (r : Ray) (rOutW : Option ℝ)
    (hne : cam.elementInterfaces.length ≠ 0)
    (hstop : (cam.elementInterfaces.getD (cam.elementInterfaces.length - 1)
        default).curvatureRadius = 0)
    (hdz : r.d.z ≤ 0) :
    TraceLensesFromFilm cam r rOutW = none := by
  unfold TraceLensesFromFilm
  rcases hn : cam.elementInterfaces.length with _ | k
  · exact absurd hn hne
  · rw [hn] at hstop
    simp only [Nat.add_sub_cancel, List.getD_eq_getElem?_getD] at hstop
    simp [traceFilmAux, hstop, applyLensScale, neg_nonneg, hdz]

/-- C2 witness: the concrete stop-only camera rejects a film-side ray whose
camera-space z direction is negative, returning no intersection at the
stop. -/
theorem c2_film_stop_guard_witness :
    TraceLensesFromFilm camS rayBack none = none :=
  c2_film_stop_guard camS rayBack none (by simp [camS])
    (by simp [camS, stopElem]) (by norm_num [rayBack])

/-- C2 counterexample: a ray whose z direction is exactly 0 cannot reach
the stop plane, yet the scene-to-film trace does not fail at the stop of
the concrete stop-only camera: it divides by the zero z component
unguarded and proceeds, so the claim that both trace entry points return
no intersection in this situation is false. -/
theorem c2_scene_stop_counterexample :
    rayPerp.d.z = 0 ∧ TraceLensesFromScene camS rayPerp ≠ none := by
  refine ⟨rfl, ?_⟩
  norm_num [TraceLensesFromScene, traceSceneAux, camS, stopElem, rayPerp,
    applyLensScale, LensFrontZ, rayAt]
  exact Option.some_ne_none _

/-- C5: the spherical-element intersection fails exactly when the quadratic
discriminant is negative or the selected root is negative, where the
selected root is the closer of the two roots exactly when (ray z-direction
positive) XOR (element radius negative) and the farther one otherwise; when
the discriminant and the selected root are nonnegative it succeeds with
that root. -/
theorem c5_sphere_root_selection (radius zCenter : ℝ) (ray : Ray) :
    (IntersectSphericalElement radius zCenter ray = none ↔
      (sphereDiscrim radius zCenter ray < 0 ∨
        sphereSelectedT radius zCenter ray < 0)) ∧
    (0 ≤ sphereDiscrim radius zCenter ray →
      0 ≤ sphereSelectedT radius zCenter ray →
      ∃ n, IntersectSphericalElement radius zCenter ray =
        some (sphereSelectedT radius zCenter ray, n)) := by
  have hQ : Quadratic (sphereA ray) (sphereB zCenter ray) (sphereC radius zCenter ray) =
      if sphereDiscrim radius zCenter ray < 0 then none
      else some (sphereT0 radius zCenter ray, sphereT1 radius zCenter ray) := rfl
  by_cases hd : sphereDiscrim radius zCenter ray < 0
  · have hI : IntersectSphericalElement radius zCenter ray = none := by
      unfold IntersectSphericalElement
      rw [hQ, if_pos hd]
    exact ⟨by simp [hI, hd], fun h0 _ => absurd hd (not_lt.mpr h0)⟩
  · have hI : IntersectSphericalElement radius zCenter ray =
        if sphereSelectedT radius zCenter ray < 0 then none
        else some (sphereSelectedT radius zCenter ray, Faceforward (Normalize
          ⟨(sphereOrel zCenter ray).x + sphereSelectedT radius zCenter ray * ray.d.x,
           (sphereOrel zCenter ray).y + sphereSelectedT radius zCenter ray * ray.d.y,
           (sphereOrel zCenter ray).z + sphereSelectedT radius zCenter ray * ray.d.z⟩)
          (negV ray.d)) := by
      unfold IntersectSphericalElement
      rw [hQ, if_neg hd]
      rfl
    by_cases ht : sphereSelectedT radius zCenter ray < 0
    · rw [hI, if_pos ht]
      exact ⟨by simp [ht], fun _ h1 => absurd ht (not_lt.mpr h1)⟩
    · rw [hI, if_neg ht]
      exact ⟨by simp [hd, ht], fun _ _ => ⟨_, rfl⟩⟩

/-- C5 witness: the axial ray from z = -2 against the unit sphere at the
origin has discriminant 4 and selects the closer root 1, and the
intersection succeeds with parameter 1. -/
theorem c5_sphere_root_selection_witness :
    ∃ n, IntersectSphericalElement 1 0 ray0 = some (1, n) := by
  have hdv : sphereDiscrim 1 0 ray0 = 4 := by
    norm_num [sphereDiscrim, sphereA, sphereB, sphereC, sphereOrel, ray0]
  have hsq : Real.sqrt (sphereDiscrim 1 0 ray0) = 2 := by
    rw [hdv, show (4 : ℝ) = 2 ^ 2 by norm_num, Real.sqrt_sq (by norm_num)]
  have hT0 : sphereT0 1 0 ray0 = 1 := by
    unfold sphereT0
    rw [hsq]
    norm_num [sphereB, sphereA, sphereOrel, ray0]
  have hT1 : sphereT1 1 0 ray0 = 3 := by
    unfold sphereT1
    rw [hsq]
    norm_num [sphereB, sphereA, sphereOrel, ray0]
  have hx : Xor' (0 < ray0.d.z) ((1 : ℝ) < 0) :=
    Or.inl ⟨by norm_num [ray0], by norm_num⟩
  have hsel : sphereSelectedT 1 0 ray0 = 1 := by
    unfold sphereSelectedT
    rw [if_pos hx, hT0, hT1]
    norm_num
  have h := (c5_sphere_root_selection 1 0 ray0).2 (by rw [hdv]; norm_num)
    (by rw [hsel]; norm_num)
  rw [hsel] at h
  exact h

/-- C6 counterexample: at a refracting interface of the scene-to-film
trace, with the chromatic-aberration perturbation defined and a visible
wavelength of 400, the trace uses the unperturbed index pair (1, 3/2)
while the perturbation would change 3/2; so the claim that both trace
directions perturb the indices before the ratio is false, the
scene-to-film direction applies no perturbation. -/
theorem c6_ca_counterexample :
    sceneEtas elemsC6 0 = (1, 3 / 2) ∧ caPerturb 400 (3 / 2) ≠ 3 / 2 := by
  constructor
  · norm_num [sceneEtas, elemsC6]
  · norm_num [caPerturb]

/-- C6 amended: only the film-to-scene direction applies the
chromatic-aberration perturbation: with the flag enabled and a wavelength
in [400, 700] it perturbs each refraction index that is not 1 by the
linear offset function before the ratio is formed, while the scene-to-film
trace is entirely independent of the chromatic-aberration flag. -/
theorem c6_ca_film_only :
    (∀ (wl : ℝ) (elems : List LensElementInterface) (i : ℕ),
      400 ≤ wl → wl ≤ 700 →
      filmEtas true wl elems i =
        ((if (elems.getD i default).eta ≠ 1
          then caPerturb wl (elems.getD i default).eta
          else (elems.getD i default).eta),
         (if (if 0 < i ∧ (elems.getD (i - 1) default).eta ≠ 0
              then (elems.getD (i - 1) default).eta else 1) ≠ 1
          then caPerturb wl (if 0 < i ∧ (elems.getD (i - 1) default).eta ≠ 0
              then (elems.getD (i - 1) default).eta else 1)
          else (if 0 < i ∧ (elems.getD (i - 1) default).eta ≠ 0
              then (elems.getD (i - 1) default).eta else 1)))) ∧
    (∀ (cam : RealisticCamera) (r : Ray) (a b : Bool),
      TraceLensesFromScene { cam with caFlag := a } r =
        TraceLensesFromScene { cam with caFlag := b } r) := by
  constructor
  · intro wl elems i h1 h2
    unfold filmEtas
    rw [if_pos ⟨rfl, h1, h2⟩]
  · intro cam r a b
    rfl

/-- C6 witness: at wavelength 400 with a single surface of eta 3/2, the
film-side index pair is the perturbed transmitted index paired with the
unperturbed air index 1. -/
theorem c6_ca_film_only_witness :
    filmEtas true 400 elemsC6 0 = (caPerturb 400 (3 / 2), 1) := by
  have h := (c6_ca_film_only).1 400 elemsC6 0 (by norm_num) (by norm_num)
  rw [h]
  norm_num [elemsC6]

/-- Helper: an indexed lookup in a list of nonnegative-area bounds has
nonnegative area, the out-of-range default included. -/
theorem area_getD_nonneg (l : List Bounds2f) (i : ℕ)
    (hb : ∀ b ∈ l, 0 ≤ Area b) : 0 ≤ Area (l.getD i default) := by
  rw [List.getD_eq_getElem?_getD]
  rcases h : l[i]? with _ | b
  · have hms : (0 : ℝ) ≤ (-maxNum - maxNum) * (-maxNum - maxNum) := mul_self_nonneg _
    simpa [Area, bounds2Default, default] using hms
  · simp only [Option.getD_some]
    obtain ⟨hlt, hbv⟩ := List.getElem?_eq_some.mp h
    exact hbv ▸ hb _ (List.getElem_mem hlt)

/-- Helper: the band pupil area reported by SampleExitPupil is nonnegative
whenever all table entries have nonnegative area. -/
theorem samplePupilArea_nonneg (cam : RealisticCamera) (p l : Point2f)
    (hb : ∀ b ∈ cam.exitPupilBounds, 0 ≤ Area b) :
    0 ≤ (SampleExitPupil cam p l).2 := by
  unfold SampleExitPupil
  exact area_getD_nonneg _ _ hb

/-- C4: GenerateRay pairs a failing film-to-scene trace with the weight 0
and no ray, and under the construction invariants (shutter interval
ordered by the creation-time swap, pupil-table areas nonnegative) the
returned weight is never negative; hence a nonzero weight never
accompanies a failed trace. -/
theorem c4_weight_zero_on_fail_nonneg (cam : RealisticCamera)
    (sample : CameraSample) (w : ℝ)
    (hshut : cam.shutterOpen ≤ cam.shutterClose)
    (hb : ∀ b ∈ cam.exitPupilBounds, 0 ≤ Area b) :
    0 ≤ (GenerateRay cam sample w).1 ∧
    (TraceLensesFromFilm cam (filmRay cam sample) (some w) = none →
      (GenerateRay cam sample w).1 = 0 ∧ (GenerateRay cam sample w).2 = none) := by
  have hband : 0 ≤ (SampleExitPupil cam
      ⟨(filmSamplePoint cam sample).x, (filmSamplePoint cam sample).y⟩ sample.pLens).2 :=
    samplePupilArea_nonneg cam _ _ hb
  have h0 : 0 ≤ Area (cam.exitPupilBounds.getD 0 default) :=
    area_getD_nonneg _ _ hb
  constructor
  · unfold GenerateRay
    rcases htr : TraceLensesFromFilm cam (filmRay cam sample) (some w) with _ | r
    · simp
    · by_cases hs : cam.simpleWeighting
      · simp only [hs, if_true]
        exact div_nonneg (mul_nonneg (mul_self_nonneg _) hband) h0
      · simp only [hs, if_false]
        exact div_nonneg
          (mul_nonneg (sub_nonneg.mpr hshut)
            (mul_nonneg (mul_self_nonneg _) hband))
          (mul_self_nonneg _)
  · intro h
    unfold GenerateRay
    rw [h]
    exact ⟨rfl, rfl⟩

/-- C4 witness: on the concrete stop-only camera the weight is nonnegative
and a failed trace would come with weight 0 and no ray. -/
theorem c4_weight_zero_on_fail_nonneg_witness :
    0 ≤ (GenerateRay camS sampleC 550).1 ∧
    (TraceLensesFromFilm camS (filmRay camS sampleC) (some 550) = none →
      (GenerateRay camS sampleC 550).1 = 0 ∧ (GenerateRay camS sampleC 550).2 = none) := by
  refine c4_weight_zero_on_fail_nonneg camS sampleC 550 (by norm_num [camS]) ?_
  intro b hbm
  have : b = unitBox := by simpa [camS] using hbm
  rw [this]
  norm_num [Area, unitBox]

/-- Helper: the film point of the concrete center sample is the origin. -/
theorem filmSamplePoint_camS : filmSamplePoint camS sampleC = ⟨0, 0, 0⟩ := by
  norm_num [filmSamplePoint, camS, sampleC, Lerp, unitBox]

/-- Helper: the exit-pupil sample of the concrete camera at the film
center is the rear-plane origin with band area 4. -/
theorem samplePupil_camS :
    SampleExitPupil camS ⟨0, 0⟩ sampleC.pLens = (⟨0, 0, 1⟩, 4) := by
  norm_num [SampleExitPupil, camS, sampleC, unitBox, Lerp, lerpBounds, Area,
    LensRearZ, stopElem, List.getLastD, Real.sqrt_zero]

/-- Helper: the film-side ray of the concrete camera and center sample. -/
theorem filmRay_camS : filmRay camS sampleC = ⟨⟨0, 0, 0⟩, ⟨0, 0, 1⟩, 0, 550⟩ := by
  unfold filmRay
  rw [filmSamplePoint_camS]
  norm_num [samplePupil_camS]
  norm_num [camS, sampleC, Lerp]

/-- Helper: the film-to-scene trace of the concrete stop-only camera
succeeds and exits at the stop plane along the axis. -/
theorem traceFilm_camS :
    TraceLensesFromFilm camS (filmRay camS sampleC) (some 550) =
      some ⟨⟨0, 0, 1⟩, ⟨0, 0, 1⟩, 0, 550⟩ := by
  rw [filmRay_camS]
  norm_num [TraceLensesFromFilm, traceFilmAux, camS, stopElem, applyLensScale, rayAt]

/-- C3 amended: on a surviving film sample the camera ray generator
returns the weight cos^4 theta times the band pupil area over the central
band pupil area exactly when the simple-weighting flag is set; the
non-simple mode multiplies by the shutter duration and divides by the
squared rear-element z instead (see the counterexample). -/
theorem c3_weight_formula_amended (cam : RealisticCamera) (sample : CameraSample)
    (w : ℝ) (hsw : cam.simpleWeighting = true)
    (hsucc : TraceLensesFromFilm cam (filmRay cam sample) (some w) ≠ none) :
    (GenerateRay cam sample w).1 =
      (Normalize (filmRay cam sample).d).z * (Normalize (filmRay cam sample).d).z *
        ((Normalize (filmRay cam sample).d).z * (Normalize (filmRay cam sample).d).z) *
        (SampleExitPupil cam ⟨(filmSamplePoint cam sample).x, (filmSamplePoint cam sample).y⟩
           sample.pLens).2 / Area (cam.exitPupilBounds.getD 0 default) := by
  unfold GenerateRay
  rcases htr : TraceLensesFromFilm cam (filmRay cam sample) (some w) with _ | r
  · exact absurd htr hsucc
  · simp [hsw]

/-- C3 witness: on the concrete stop-only camera with simple weighting the
generated weight equals 1, the claimed formula value. -/
theorem c3_weight_formula_amended_witness : (GenerateRay camS sampleC 550).1 = 1 := by
  have h := c3_weight_formula_amended camS sampleC 550 rfl
    (by rw [traceFilm_camS]; exact Option.some_ne_none _)
  rw [h, filmRay_camS, filmSamplePoint_camS]
  norm_num [samplePupil_camS, Normalize, Real.sqrt_one]
  norm_num [camS, unitBox, Area, List.getD_cons_zero]

/-- C3 counterexample: with the simple-weighting flag off the trace still
survives but the returned weight is 4 while the claimed formula (cos^4
times band area over central band area) evaluates to 1; so the claim does
not hold of every surviving film sample. -/
theorem c3_weight_formula_counterexample :
    TraceLensesFromFilm camNS (filmRay camNS sampleC) (some 550) ≠ none ∧
    (GenerateRay camNS sampleC 550).1 = 4 ∧
    (Normalize (filmRay camNS sampleC).d).z * (Normalize (filmRay camNS sampleC).d).z *
      ((Normalize (filmRay camNS sampleC).d).z * (Normalize (filmRay camNS sampleC).d).z) *
      (SampleExitPupil camNS ⟨(filmSamplePoint camNS sampleC).x, (filmSamplePoint camNS sampleC).y⟩
         sampleC.pLens).2 / Area (camNS.exitPupilBounds.getD 0 default) = 1 ∧
    (4 : ℝ) ≠ 1 := by
  have e1 : filmRay camNS sampleC = filmRay camS sampleC := rfl
  have e2 : TraceLensesFromFilm camNS (filmRay camNS sampleC) (some 550) =
      TraceLensesFromFilm camS (filmRay camS sampleC) (some 550) := rfl
  have e3 : filmSamplePoint camNS sampleC = filmSamplePoint camS sampleC := rfl
  have e4 : ∀ p l, SampleExitPupil camNS p l = SampleExitPupil camS p l :=
    fun _ _ => rfl
  refine ⟨?_, ?_, ?_, by norm_num⟩
  · rw [e2, traceFilm_camS]
    exact Option.some_ne_none _
  · unfold GenerateRay
    rw [e2, traceFilm_camS, e1, filmRay_camS, e3, filmSamplePoint_camS]
    norm_num [show camNS.simpleWeighting = false from rfl, e4,
      samplePupil_camS, Normalize, Real.sqrt_one]
    norm_num [camNS, camS, LensRearZ, stopElem, List.getLastD]
  · rw [e1, e3, filmRay_camS, filmSamplePoint_camS]
    norm_num [e4, samplePupil_camS, Normalize, Real.sqrt_one]
    norm_num [camNS, camS, unitBox, Area, List.getD_cons_zero]

/-- Helper: one unfolding step of the exit-pupil sampling fold. -/
theorem boundExitPupilAccum_succ (cam : RealisticCamera) (x0 x1 : ℝ) (n : ℕ) :
    boundExitPupilAccum cam x0 x1 (n + 1) =
      boundExitPupilStep cam x0 x1 (boundExitPupilAccum cam x0 x1 n) n := by
  unfold boundExitPupilAccum
  rw [List.range_succ, List.foldl_append]
  simp

/-- Helper: no point lies inside the default (empty) bounds. -/
theorem not_inside_bounds2Default (p : Point2f) : ¬ Inside p bounds2Default := by
  rintro ⟨h1, h2, -, -⟩
  have h3 := le_trans h1 h2
  norm_num [bounds2Default, maxNum] at h3

/-- C7: when none of the fixed number of pupil samples of a radial band is
accepted (neither inside the accumulated bound nor tracing through the
stack), BoundExitPupil returns the full conservative bounding square of
1.5 rear-element radii on each axis. -/
theorem c7_zero_pass_full_square (cam : RealisticCamera) (pFilmX0 pFilmX1 : ℝ)
    (h : ∀ i, i < nSamplesEP →
      ¬ boundExitPupilSampleCond cam pFilmX0 pFilmX1
          (boundExitPupilAccum cam pFilmX0 pFilmX1 i).1 i) :
    BoundExitPupil cam pFilmX0 pFilmX1 = projRearBoundsOf cam := by
  have key : ∀ k, k ≤ nSamplesEP →
      boundExitPupilAccum cam pFilmX0 pFilmX1 k = (bounds2Default, 0) := by
    intro k
    induction k with
    | zero => intro _; rfl
    | succ n ih =>
      intro hk
      have hn := Nat.le_of_succ_le hk
      have hcond := h n (Nat.lt_of_succ_le hk)
      rw [ih hn] at hcond
      rw [boundExitPupilAccum_succ, ih hn]
      unfold boundExitPupilStep
      rw [if_neg hcond]
  unfold BoundExitPupil
  rw [key nSamplesEP le_rfl]
  simp

/-- Helper: the film-to-scene trace of the zero-thickness stop camera
fails for every ray with a zero z direction, at the stop guard. -/
theorem traceFilm_camStop0_dz0 (r : Ray) (rOutW : Option ℝ) (hz : r.d.z = 0) :
    TraceLensesFromFilm camStop0 r rOutW = none := by
  unfold TraceLensesFromFilm
  simp [camStop0, camS, stopElem0, traceFilmAux, applyLensScale, hz]

/-- Helper: every exit-pupil sample of the zero-thickness stop camera is
rejected: its candidate ray runs parallel to the film plane. -/
theorem c7cond_false_camStop0 (x0 x1 : ℝ) (i : ℕ) :
    ¬ boundExitPupilSampleCond camStop0 x0 x1 bounds2Default i := by
  unfold boundExitPupilSampleCond
  push_neg
  refine ⟨not_inside_bounds2Default _, traceFilm_camStop0_dz0 _ _ ?_⟩
  simp [boundExitPupilRay, boundExitPupilPRear, boundExitPupilPFilm, LensRearZ,
    camStop0, camS, stopElem0, List.getLastD]

/-- Helper: the sampling fold of the zero-thickness stop camera never
leaves the initial empty state. -/
theorem accum_camStop0 (x0 x1 : ℝ) (k : ℕ) :
    boundExitPupilAccum camStop0 x0 x1 k = (bounds2Default, 0) := by
  induction k with
  | zero => rfl
  | succ n ih =>
    rw [boundExitPupilAccum_succ, ih]
    unfold boundExitPupilStep
    rw [if_neg (c7cond_false_camStop0 x0 x1 n)]

/-- C7 witness: for the zero-thickness stop camera, where no sample is
ever accepted, BoundExitPupil reports exactly the full conservative
bounding square. -/
theorem c7_zero_pass_full_square_witness :
    BoundExitPupil camStop0 0 1 = projRearBoundsOf camStop0 := by
  refine c7_zero_pass_full_square camStop0 0 1 ?_
  intro i _
  rw [accum_camStop0]
  exact c7cond_false_camStop0 0 1 i

end

end pbrt
